import Mathlib

/-!
Verification of the pg2kinesis record-parsing, encoding and consume-cycle
layer against its natural-language specification.

The definitions below are a shallow embedding of `pg2kinesis/formatter.py`
(present in the repository) and of the consume controller described by the
spec (whose implementation file is absent from the repository; only its
tests are present).  Regular-expression searches are embedded as boolean /
partial-function parameters of the configurations, since the code only ever
observes "did the pattern match" and "the first captured group".
-/

/-- The `Change` namedtuple of formatter.py: a row change distilled to its
transaction id, table, operation and primary-key value.  All four fields
are strings (the formatter stringifies them on output). -/
structure Change where
  xid : String
  table : String
  operation : String
  pkey : String
deriving DecidableEq, Repr

/-- One entry of a wal2json `change` list: the dictionary
`{kind, schema, table, columnnames, columntypes, columnvalues}`.  Column
values are modelled already stringified (the code applies `str` to the
value it extracts). -/
structure W2JEntry where
  kind : String
  schema : String
  table : String
  columnnames : List String
  columntypes : List String
  columnvalues : List String
deriving DecidableEq, Repr

/-- The `FullChange` namedtuple of formatter.py: transaction id plus the
raw wal2json entry, unmodified. -/
structure FullChange where
  xid : String
  change : W2JEntry
deriving DecidableEq, Repr

/-- A record produced by `Wal2JsonPreprocessor.preprocess`: either a
distilled `Change` (primary-key mode) or a `FullChange` (full-capture
mode). -/
inductive W2JRecord where
  | change (c : Change)
  | full (f : FullChange)
deriving DecidableEq, Repr

/-- The `Message` namedtuple of formatter.py: a change paired with its
formatted wire text. -/
structure Message where
  change : Change
  fmt_msg : String
deriving DecidableEq, Repr

/-- One value of the primary-key map: the `primary_key` tuple with a
column name and a column type. -/
structure PrimaryKey where
  col_name : String
  col_type : String
deriving DecidableEq, Repr

/-- The error text of `MISSING_TABLE_ERR` in formatter.py, with the table
name substituted. -/
def MISSING_TABLE_ERR (t : String) : String :=
  "Unable to locate table: \"" ++ t ++ "\""

/-- The error text of `MISSING_PK_ERR` in formatter.py, with the table
name substituted. -/
def MISSING_PK_ERR (t : String) : String :=
  "Unable to locate primary key for table \"" ++ t ++ "\""

/-- The error text of the unknown-change branch of
`TestDecodingPreprocessor.preprocess`, with the payload substituted. -/
def UNKNOWN_CHANGE_ERR (payload : String) : String :=
  "Unknown change: \"" ++ payload ++ "\""

/-- Python's uncaught `IndexError` from a list subscript. -/
def INDEX_ERR : String := "IndexError"

/-- Python's uncaught `ValueError` from `list.index` when the element is
absent. -/
def VALUE_ERR (x : String) : String := "ValueError: " ++ x

/-- Auxiliary for `str.split(sep, maxsplit)` with a single-space
separator: at most `n` splits, every character after the last allowed
split (spaces included) stays in the final piece. -/
def splitMaxAux : Nat → List Char → List Char → List (List Char)
  | _, [], acc => [acc.reverse]
  | 0, cs, acc => [acc.reverse ++ cs]
  | n + 1, c :: rest, acc =>
    if c = ' ' then acc.reverse :: splitMaxAux n rest []
    else splitMaxAux (n + 1) rest (c :: acc)

/-- Python's `change.split(' ', 3)` from
`TestDecodingPreprocessor.preprocess`. -/
def splitMax3 (s : String) : List String :=
  (splitMaxAux 3 s.data []).map List.asString

/-- Python list subscripting `l[i]` on a list of strings: the value, or an
uncaught `IndexError`. -/
def geti (l : List String) (i : Nat) : Except String String :=
  match l.get? i with
  | some s => Except.ok s
  | none => Except.error INDEX_ERR

/-- Configuration of `TestDecodingPreprocessor` after `__init__`:
`tableMatch t` embeds `self.table_re.search(t) is not None`, and
`pkPatterns` embeds `self._primary_key_patterns` — an association list
keyed by the table token with its trailing colon (`rec[1]`), each value
abstracting `pattern.search(text)` followed by `.groups()[0]` as a
partial function from the column dump to the captured primary-key
value. -/
structure TDConfig where
  tableMatch : String → Bool
  pkPatterns : List (String × (String → Option String))

/-- The `cur_xact` field set by `Preprocessor.__init__`. -/
def initCurXact : String := ""

/-- Shallow embedding of `TestDecodingPreprocessor.preprocess`.  The
mutable `self.cur_xact` is passed in as `curXact` and returned next to
the record list; a raised exception becomes `Except.error`.  The branch
structure, the evaluation order of the subscripts (`rec[1]`, then the
pattern lookup, then `rec[3]`, then `rec[2]`) and the `[:-1]` trims
follow the source line by line. -/
def TestDecodingPreprocessor.preprocess (cfg : TDConfig) (curXact : String)
    (change : String) : Except String (List Change × String) :=
  let recs := splitMax3 change
  let r0 := recs.getD 0 ""
  if r0 = "BEGIN" then do
    let r1 ← geti recs 1
    Except.ok ([], r1)
  else if r0 = "COMMIT" then
    Except.ok ([], curXact)
  else if r0 = "table" then do
    let r1 ← geti recs 1
    let tableName := r1.dropRight 1
    if cfg.tableMatch tableName then
      match cfg.pkPatterns.lookup r1 with
      | none => Except.error (MISSING_TABLE_ERR r1)
      | some pat => do
        let r3 ← geti recs 3
        match pat r3 with
        | some pkey => do
          let r2 ← geti recs 2
          Except.ok ([⟨curXact, tableName, r2.dropRight 1, pkey⟩], curXact)
        | none => Except.error (MISSING_PK_ERR tableName)
    else
      Except.ok ([], curXact)
  else
    Except.error (UNKNOWN_CHANGE_ERR change)

example : splitMax3 "a b c d e" = ["a", "b", "c", "d e"] := by decide

example : splitMax3 "BEGIN 1234" = ["BEGIN", "1234"] := by decide

example :
    TestDecodingPreprocessor.preprocess
      ⟨fun _ => true, [("table_test:", fun _ => some "u-1")]⟩ "77"
      "table table_test: UPDATE: uuid[uuid]:u-1 c[text]:b" =
    Except.ok ([⟨"77", "table_test", "UPDATE", "u-1"⟩], "77") := rfl

/-- Configuration of `Wal2JsonPreprocessor` after `__init__`:
`tableMatch t` embeds `self.table_re.search(t) is not None`,
`full_change` is the full-capture flag, and `primary_key_map` is the
table-to-primary-key map as an association list keyed by the
schema-qualified table name. -/
structure W2JConfig where
  tableMatch : String → Bool
  full_change : Bool
  primary_key_map : List (String × PrimaryKey)

/-- A parsed wal2json payload: the top-level `xid` integer and the
`change` list.  A falsy JSON document (empty object, null, ...) is
represented by `none` at the call site of `preprocess`. -/
structure W2JPayload where
  xid : Nat
  change : List W2JEntry
deriving DecidableEq, Repr

/-- The per-entry loop body of `Wal2JsonPreprocessor.preprocess`: walks
the `change` list in order, appending a `FullChange` (full-capture mode)
or a distilled `Change` (primary-key mode) for each entry whose
unqualified table name matches the filter, and raising — which aborts
the whole call — on an unregistered schema-qualified table, a missing
primary-key column name (`list.index` ValueError) or a short value list
(IndexError).  The source performs the map lookup twice in a nested
try/except with identical key and handler; the second lookup can never
take a different branch than the first, so it is embedded once. -/
def processEntries (cfg : W2JConfig) (cur : String) :
    List W2JEntry → Except String (List W2JRecord)
  | [] => Except.ok []
  | e :: rest =>
    if cfg.tableMatch e.table then
      if cfg.full_change then do
        let tail ← processEntries cfg cur rest
        Except.ok (W2JRecord.full ⟨cur, e⟩ :: tail)
      else
        let fullTable := e.schema ++ "." ++ e.table
        match cfg.primary_key_map.lookup fullTable with
        | none => Except.error (MISSING_TABLE_ERR fullTable)
        | some pk =>
          match e.columnnames.indexOf? pk.col_name with
          | none => Except.error (VALUE_ERR pk.col_name)
          | some i =>
            match e.columnvalues.get? i with
            | none => Except.error INDEX_ERR
            | some v => do
              let tail ← processEntries cfg cur rest
              Except.ok (W2JRecord.change
                ⟨cur, fullTable, e.kind.toLower, v⟩ :: tail)
    else
      processEntries cfg cur rest

/-- Shallow embedding of `Wal2JsonPreprocessor.preprocess`.  The
argument `input` is the result of `json.loads(change)`: `none` stands
for a falsy document (the `if not change_dictionary: return None` early
exit, embedded as `Except.ok (none, curXact)`), `some p` for a JSON
object with its `xid` and `change` fields.  The mutable `self.cur_xact`
is threaded explicitly; the source stores the raw integer, which is
observed only through its string form, embedded here as `toString`. -/
def Wal2JsonPreprocessor.preprocess (cfg : W2JConfig) (curXact : String)
    (input : Option W2JPayload) :
    Except String (Option (List W2JRecord) × String) :=
  match input with
  | none => Except.ok (none, curXact)
  | some p =>
    let cur := toString p.xid
    match processEntries cfg cur p.change with
    | Except.ok recs => Except.ok (some recs, cur)
    | Except.error msg => Except.error msg

/-- The class attribute `Formatter.VERSION` as overridden by
`CSVFormatter.VERSION`. -/
def CSVFormatter.VERSION : Nat := 0

/-- The class attribute `Formatter.TYPE`, inherited by `CSVFormatter`. -/
def CSVFormatter.TYPE : String := "CDC"

/-- Shallow embedding of `CSVFormatter.produce_formatted_message`: the
format string `{},{},{},{},{},{}` applied to the version, the type tag
and the four `Change` fields in declaration order. -/
def CSVFormatter.produce_formatted_message (c : Change) : Message :=
  { change := c
    fmt_msg := toString CSVFormatter.VERSION ++ "," ++ CSVFormatter.TYPE ++ ","
      ++ c.xid ++ "," ++ c.table ++ "," ++ c.operation ++ "," ++ c.pkey }

example :
    (CSVFormatter.produce_formatted_message ⟨"9", "t", "update", "42"⟩).fmt_msg
      = "0,CDC,9,t,update,42" := rfl

/-- The window counters of the consume controller: `cur_window` is the
start of the current 10-unit bucket, `msg_window_count` and
`msg_window_size` the events and bytes accounted to it. -/
structure WindowState where
  cur_window : Nat
  msg_window_count : Nat
  msg_window_size : Nat
deriving DecidableEq, Repr

/-- One raw replication event as seen by the consume controller:
`data_start` is the log position acknowledged on success, `data_size`
its byte size, and `fmt_msgs` the messages the configured formatter
produced from its payload (the formatter is a collaborator here, as in
the tests). -/
structure ReplEvent (μ : Type) where
  data_start : Nat
  data_size : Nat
  fmt_msgs : List μ
deriving DecidableEq, Repr

/-- The observable outcome of one consume cycle: the messages handed to
the publisher in order, the list of `send_feedback` flush positions
issued, and the window counters afterwards. -/
structure CycleResult (μ : Type) where
  put_calls : List μ
  feedback : List Nat
  window : WindowState
deriving DecidableEq, Repr

/-- Modelled from the spec: the window accounting of the consume
controller (spec section 4.3 step 6), whose implementation module is not
in the repository sources; only its tests are.  `now` is the truncated
current time.  The relative order of the per-event increment and the
bucket reset is not the spec's (reset first, increment after) but the
one the repository's own tests pin down (tests/test___main__.py, the
three window assertions): the counters are incremented first, and a
bucket change then resets them to zero. -/
def windowStep (now size : Nat) (w : WindowState) : WindowState :=
  let count := w.msg_window_count + 1
  let sz := w.msg_window_size + size
  let newBucket := now / 10 * 10
  if newBucket ≠ w.cur_window then ⟨newBucket, 0, 0⟩
  else ⟨w.cur_window, count, sz⟩

/-- Modelled from the spec: one cycle of the consume controller (spec
section 4.3), whose implementation module is not in the repository
sources.  `should_send` is the operation filter, `put` the publisher's
acceptance behaviour for this cycle.  Messages passing the filter are
handed to the publisher in order; feedback at `e.data_start` is sent
exactly once when at least one put reported acceptance and never
otherwise; the window counters advance by `windowStep`. -/
def consume {μ : Type} (should_send put : μ → Bool) (now : Nat)
    (e : ReplEvent μ) (w : WindowState) : CycleResult μ :=
  let sent := e.fmt_msgs.filter should_send
  { put_calls := sent
    feedback := if sent.any put then [e.data_start] else []
    window := windowStep now e.data_size w }

example :
    consume (fun m => decide (m = "d")) (fun _ => true) 11
      ⟨10, 100, ["d", "i"]⟩ ⟨10, 0, 0⟩ =
    { put_calls := ["d"], feedback := [10], window := ⟨10, 1, 100⟩ } := rfl

theorem string_data_append (s t : String) : (s ++ t).data = s.data ++ t.data := by
  cases s; cases t; rfl

theorem string_eq_of_data (s t : String) (h : s.data = t.data) : s = t := by
  cases s; cases t; exact congrArg String.mk h

theorem asString_data (s : String) : s.data.asString = s := by
  cases s; rfl

/-- Claim C6: for every `Change`, the compact encoder's output text is
exactly the string `0,CDC,` followed by xid, table, operation and pkey
joined by commas in that order, and hence always begins with the fixed
`0,CDC` version-and-type prefix. -/
theorem csv_fmt_msg_eq_prefix_fields (c : Change) :
    (CSVFormatter.produce_formatted_message c).fmt_msg =
      "0,CDC," ++ c.xid ++ "," ++ c.table ++ "," ++ c.operation ++ "," ++ c.pkey ∧
    ∃ rest, (CSVFormatter.produce_formatted_message c).fmt_msg = "0,CDC" ++ rest := by
  constructor
  · rfl
  · refine ⟨"," ++ c.xid ++ "," ++ c.table ++ "," ++ c.operation ++ "," ++ c.pkey, ?_⟩
    apply string_eq_of_data
    have hv : (toString CSVFormatter.VERSION).data = ['0'] := rfl
    have ht : CSVFormatter.TYPE.data = ['C', 'D', 'C'] := rfl
    simp [CSVFormatter.produce_formatted_message, string_data_append, hv, ht]

/-- Claim C7: when none of the four `Change` fields contains a comma,
splitting the compact encoder's output on commas and dropping the two
fixed leading fields yields back exactly the original
(xid, table, operation, pkey) tuple. -/
theorem csv_fmt_msg_roundtrip (c : Change)
    (h1 : ',' ∉ c.xid.data) (h2 : ',' ∉ c.table.data)
    (h3 : ',' ∉ c.operation.data) (h4 : ',' ∉ c.pkey.data) :
    ((((CSVFormatter.produce_formatted_message c).fmt_msg.data.splitOn ',').map
        List.asString).drop 2) = [c.xid, c.table, c.operation, c.pkey] := by
  have hdata : (CSVFormatter.produce_formatted_message c).fmt_msg.data =
      [','].intercalate [['0'], ['C', 'D', 'C'], c.xid.data, c.table.data,
        c.operation.data, c.pkey.data] := by
    have hv : (toString CSVFormatter.VERSION).data = ['0'] := rfl
    have ht : CSVFormatter.TYPE.data = ['C', 'D', 'C'] := rfl
    simp [CSVFormatter.produce_formatted_message, string_data_append, hv, ht,
      List.intercalate, List.intersperse]
  rw [hdata, List.splitOn_intercalate]
  · simp [asString_data]
  · intro l hl
    simp only [List.mem_cons, List.not_mem_nil, or_false] at hl
    rcases hl with h | h | h | h | h | h <;> subst h
    · decide
    · decide
    · exact h1
    · exact h2
    · exact h3
    · exact h4
  · simp

theorem csv_fmt_msg_roundtrip_witness :
    ((((CSVFormatter.produce_formatted_message
        ⟨"1234", "public.users", "update", "42"⟩).fmt_msg.data.splitOn ',').map
        List.asString).drop 2) = ["1234", "public.users", "update", "42"] :=
  csv_fmt_msg_roundtrip ⟨"1234", "public.users", "update", "42"⟩
    (by decide) (by decide) (by decide) (by decide)

/-- Claim C1: in one consume cycle over one raw event, feedback at
`e.data_start` is issued exactly once when at least one publisher put in
the cycle returned true, and no feedback at all is issued when no put
returned true — including the case where every message was filtered out
and the publisher was never called. -/
theorem consume_feedback_iff_any_put {μ : Type} (should_send put : μ → Bool)
    (now : Nat) (e : ReplEvent μ) (w : WindowState) :
    ((∃ m ∈ (consume should_send put now e w).put_calls, put m = true) →
      (consume should_send put now e w).feedback = [e.data_start]) ∧
    ((∀ m ∈ (consume should_send put now e w).put_calls, put m = false) →
      (consume should_send put now e w).feedback = []) := by
  constructor
  · intro h
    show (if (e.fmt_msgs.filter should_send).any put then [e.data_start] else [])
      = [e.data_start]
    exact if_pos (List.any_eq_true.mpr h)
  · intro h
    show (if (e.fmt_msgs.filter should_send).any put then [e.data_start] else []) = []
    refine if_neg fun hc => ?_
    obtain ⟨m, hm, hp⟩ := List.any_eq_true.mp hc
    rw [h m hm] at hp
    exact Bool.false_ne_true hp

theorem consume_feedback_iff_any_put_witness :
    (consume (fun m => decide (m = "delete_msg")) (fun _ => true) 0
      ⟨10, 100, ["insert_msg1", "insert_msg2"]⟩ ⟨0, 0, 0⟩).feedback = [] :=
  (consume_feedback_iff_any_put (fun m => decide (m = "delete_msg"))
    (fun _ => true) 0 ⟨10, 100, ["insert_msg1", "insert_msg2"]⟩ ⟨0, 0, 0⟩).2
    (by decide)

/-- Claim C2, counterexample: at the scenario of the repository's own
test (window start 10, counters zero, a cycle at time 20 with event size
100), the cycle ends with both counters equal to 0, not with
messageCount = 1 and byteSize = 100 as the claim states. -/
theorem consume_window_new_bucket_counterexample :
    (consume (fun _ => true) (fun _ => true) 20
      (⟨10, 100, ["m"]⟩ : ReplEvent String) ⟨10, 0, 0⟩).window = ⟨20, 0, 0⟩ ∧
    ¬ ((consume (fun _ => true) (fun _ => true) 20
        (⟨10, 100, ["m"]⟩ : ReplEvent String) ⟨10, 0, 0⟩).window.msg_window_count = 1 ∧
       (consume (fun _ => true) (fun _ => true) 20
        (⟨10, 100, ["m"]⟩ : ReplEvent String) ⟨10, 0, 0⟩).window.msg_window_size = 100) := by
  constructor
  · rfl
  · intro h
    exact absurd h.1 (by decide)

/-- Claim C2 (amended): on every consume cycle the controller first
increments messageCount by 1 and byteSize by e.size, and afterwards
computes newBucket = floor(now/10)*10; if newBucket differs from the
stored bucketStart it resets messageCount and byteSize to 0 and sets
bucketStart := newBucket, so after a cycle whose time falls into a new
10-unit bucket the counters are 0 (the cycle's own event was accounted
to the old bucket before the reset), while a cycle in the same bucket
leaves the counters increased by exactly that one event. -/
theorem consume_window_step {μ : Type} (should_send put : μ → Bool)
    (now : Nat) (e : ReplEvent μ) (w : WindowState) :
    (now / 10 * 10 ≠ w.cur_window →
      (consume should_send put now e w).window = ⟨now / 10 * 10, 0, 0⟩) ∧
    (now / 10 * 10 = w.cur_window →
      (consume should_send put now e w).window =
        ⟨w.cur_window, w.msg_window_count + 1, w.msg_window_size + e.data_size⟩) := by
  constructor
  · intro h
    show windowStep now e.data_size w = _
    simp [windowStep, h]
  · intro h
    show windowStep now e.data_size w = _
    simp [windowStep, h]

theorem consume_window_step_witness :
    (consume (fun _ => true) (fun _ => true) 20
      (⟨10, 100, ["m"]⟩ : ReplEvent String) ⟨10, 0, 0⟩).window = ⟨20, 0, 0⟩ :=
  (consume_window_step (fun _ => true) (fun _ => true) 20
    (⟨10, 100, ["m"]⟩ : ReplEvent String) ⟨10, 0, 0⟩).1 (by decide)

/-- Claim C3, counterexample: on a falsy (empty/absent) structured
payload the wal2json preprocessor returns `None` — embedded as the
`none` record component — and not the empty list of records the claim
states. -/
theorem w2j_empty_payload_counterexample :
    Wal2JsonPreprocessor.preprocess ⟨fun _ => true, false, []⟩ initCurXact none
      = Except.ok (none, initCurXact) ∧
    (none : Option (List W2JRecord)) ≠ some [] := by
  exact ⟨rfl, by simp⟩

/-- Claim C3 (amended): a falsy (empty/absent) structured payload yields
`None` — no records and no error — and a payload whose change list is
empty yields the empty list of records and no error. -/
theorem w2j_empty_cases (cfg : W2JConfig) (s : String) (p : W2JPayload)
    (h : p.change = []) :
    Wal2JsonPreprocessor.preprocess cfg s none = Except.ok (none, s) ∧
    Wal2JsonPreprocessor.preprocess cfg s (some p)
      = Except.ok (some [], toString p.xid) := by
  refine ⟨rfl, ?_⟩
  simp [Wal2JsonPreprocessor.preprocess, h, processEntries]

theorem w2j_empty_cases_witness :
    Wal2JsonPreprocessor.preprocess ⟨fun _ => true, false, []⟩ initCurXact none
        = Except.ok (none, initCurXact) ∧
    Wal2JsonPreprocessor.preprocess ⟨fun _ => true, false, []⟩ initCurXact
        (some ⟨7, []⟩) = Except.ok (some [], "7") :=
  w2j_empty_cases ⟨fun _ => true, false, []⟩ initCurXact ⟨7, []⟩ rfl

/-- Claim C5: in full-capture mode the wal2json preprocessor maps every
entry whose unqualified table matches the filter to a `FullChange`
wrapping the raw entry unchanged together with the payload's transaction
id, performs no primary-key extraction, and never errors — whatever the
primary-key map contains. -/
theorem w2j_full_change_map (cfg : W2JConfig) (s : String) (p : W2JPayload)
    (h : cfg.full_change = true) :
    Wal2JsonPreprocessor.preprocess cfg s (some p) =
      Except.ok (some ((p.change.filter (fun e => cfg.tableMatch e.table)).map
        (fun e => W2JRecord.full ⟨toString p.xid, e⟩)), toString p.xid) := by
  have key : ∀ l : List W2JEntry, processEntries cfg (toString p.xid) l =
      Except.ok ((l.filter (fun e => cfg.tableMatch e.table)).map
        (fun e => W2JRecord.full ⟨toString p.xid, e⟩)) := by
    intro l
    induction l with
    | nil => rfl
    | cons e rest ih =>
      by_cases hm : cfg.tableMatch e.table
      · simp [processEntries, hm, h, ih, List.filter_cons, bind, Except.bind]
      · simp [processEntries, hm, ih, List.filter_cons]
  simp [Wal2JsonPreprocessor.preprocess, key]

theorem w2j_full_change_map_witness :
    Wal2JsonPreprocessor.preprocess ⟨fun _ => true, true, []⟩ initCurXact
      (some ⟨9, [⟨"insert", "public", "users", ["id"], ["int4"], ["42"]⟩]⟩) =
    Except.ok (some [W2JRecord.full
      ⟨"9", ⟨"insert", "public", "users", ["id"], ["int4"], ["42"]⟩⟩], "9") := by
  have h := w2j_full_change_map ⟨fun _ => true, true, []⟩ initCurXact
    ⟨9, [⟨"insert", "public", "users", ["id"], ["int4"], ["42"]⟩]⟩ rfl
  simpa using h

/-- Claim C9: the wal2json filter is evaluated against the unqualified
table field only, while the primary-key lookup uses the schema-qualified
name: a filter accepting only dotted (schema-qualified) names skips
every entry whose table field is undotted, without error and in either
mode; and in primary-key mode a matching entry is looked up — and its
missing-table error reported — under `schema.table`. -/
theorem w2j_filter_unqualified_lookup_qualified (cfg : W2JConfig) (s : String)
    (p : W2JPayload) :
    ((∀ t, cfg.tableMatch t = true → t.data.contains '.' = true) →
     (∀ e ∈ p.change, e.table.data.contains '.' = false) →
     Wal2JsonPreprocessor.preprocess cfg s (some p)
       = Except.ok (some [], toString p.xid)) ∧
    (∀ e, cfg.full_change = false → p.change = [e] →
     cfg.tableMatch e.table = true →
     cfg.primary_key_map.lookup (e.schema ++ "." ++ e.table) = none →
     Wal2JsonPreprocessor.preprocess cfg s (some p)
       = Except.error (MISSING_TABLE_ERR (e.schema ++ "." ++ e.table))) := by
  constructor
  · intro hpat hnd
    have key : ∀ l : List W2JEntry, (∀ e ∈ l, e.table.data.contains '.' = false) →
        processEntries cfg (toString p.xid) l = Except.ok [] := by
      intro l
      induction l with
      | nil => intro _; rfl
      | cons e rest ih =>
        intro hl
        have hm : cfg.tableMatch e.table = false := by
          cases hv : cfg.tableMatch e.table
          · rfl
          · have := hpat e.table hv
            rw [hl e (List.mem_cons_self e rest)] at this
            exact absurd this (by simp)
        have := ih fun x hx => hl x (List.mem_cons_of_mem e hx)
        simp [processEntries, hm, this]
    simp [Wal2JsonPreprocessor.preprocess, key p.change hnd]
  · intro e hfull hone hm hlook
    simp [Wal2JsonPreprocessor.preprocess, processEntries, hone, hfull, hm, hlook]

theorem w2j_filter_unqualified_lookup_qualified_witness :
    Wal2JsonPreprocessor.preprocess ⟨fun t => t.data.contains '.', false, []⟩
      initCurXact
      (some ⟨5, [⟨"insert", "public", "users", ["id"], ["int4"], ["42"]⟩]⟩) =
    Except.ok (some [], "5") :=
  (w2j_filter_unqualified_lookup_qualified ⟨fun t => t.data.contains '.', false, []⟩
    initCurXact ⟨5, [⟨"insert", "public", "users", ["id"], ["int4"], ["42"]⟩]⟩).1
    (fun _ h => h) (by decide)

/-- Claim C4: for a line-oriented table-change payload, a table name that
fails the filter pattern makes preprocess return the empty list without
error, while a table name that passes the filter but has no registered
primary-key pattern makes it raise the fatal missing-table error. -/
theorem td_filter_skip_or_missing_table (cfg : TDConfig)
    (s payload t1 t2 t3 : String)
    (hsplit : splitMax3 payload = ["table", t1, t2, t3]) :
    (cfg.tableMatch (t1.dropRight 1) = false →
      TestDecodingPreprocessor.preprocess cfg s payload = Except.ok ([], s)) ∧
    (cfg.tableMatch (t1.dropRight 1) = true →
      cfg.pkPatterns.lookup t1 = none →
      TestDecodingPreprocessor.preprocess cfg s payload
        = Except.error (MISSING_TABLE_ERR t1)) := by
  constructor
  · intro h
    simp [TestDecodingPreprocessor.preprocess, hsplit, geti, h, bind, Except.bind]
  · intro h hlook
    simp [TestDecodingPreprocessor.preprocess, hsplit, geti, h, hlook, bind,
      Except.bind]

theorem td_filter_skip_or_missing_table_witness :
    TestDecodingPreprocessor.preprocess
        ⟨fun t => decide (t = "foo"), []⟩ "5" "table bar: UPDATE: x"
      = Except.ok ([], "5") ∧
    TestDecodingPreprocessor.preprocess
        ⟨fun t => decide (t = "foo"), []⟩ "5" "table foo: UPDATE: x"
      = Except.error (MISSING_TABLE_ERR "foo:") :=
  ⟨(td_filter_skip_or_missing_table ⟨fun t => decide (t = "foo"), []⟩ "5"
      "table bar: UPDATE: x" "bar:" "UPDATE:" "x" (by decide)).1 (by decide),
   (td_filter_skip_or_missing_table ⟨fun t => decide (t = "foo"), []⟩ "5"
      "table foo: UPDATE: x" "foo:" "UPDATE:" "x" (by decide)).2 (by decide) rfl⟩

/-- Claim C8: a line-oriented payload whose leading token is neither
BEGIN, nor COMMIT, nor table makes preprocess raise the fatal
unknown-change error instead of returning a record list. -/
theorem td_unknown_token_fatal (cfg : TDConfig) (s payload : String)
    (h0 : (splitMax3 payload).getD 0 "" ≠ "BEGIN")
    (h1 : (splitMax3 payload).getD 0 "" ≠ "COMMIT")
    (h2 : (splitMax3 payload).getD 0 "" ≠ "table") :
    TestDecodingPreprocessor.preprocess cfg s payload
      = Except.error (UNKNOWN_CHANGE_ERR payload) := by
  simp only [TestDecodingPreprocessor.preprocess]
  rw [if_neg h0, if_neg h1, if_neg h2]

theorem td_unknown_token_fatal_witness :
    TestDecodingPreprocessor.preprocess ⟨fun _ => true, []⟩ "5" "UNRECOGNIZED x"
      = Except.error (UNKNOWN_CHANGE_ERR "UNRECOGNIZED x") :=
  td_unknown_token_fatal ⟨fun _ => true, []⟩ "5" "UNRECOGNIZED x"
    (by decide) (by decide) (by decide)

theorem td_ok_cases (cfg : TDConfig) (s payload : String) (recs : List Change)
    (s2 : String)
    (h : TestDecodingPreprocessor.preprocess cfg s payload
      = Except.ok (recs, s2)) :
    ((splitMax3 payload).getD 0 "" = "BEGIN" ∧ recs = []) ∨
    (s2 = s ∧ ∀ c ∈ recs, c.xid = s) := by
  simp only [TestDecodingPreprocessor.preprocess] at h
  by_cases hB : (splitMax3 payload).getD 0 "" = "BEGIN"
  · rw [if_pos hB] at h
    cases hg : geti (splitMax3 payload) 1 with
    | error e =>
      simp only [hg, bind, Except.bind] at h
      exact Except.noConfusion h
    | ok r1 =>
      simp only [hg, bind, Except.bind, Except.ok.injEq, Prod.mk.injEq] at h
      exact Or.inl ⟨hB, h.1.symm⟩
  · rw [if_neg hB] at h
    by_cases hC : (splitMax3 payload).getD 0 "" = "COMMIT"
    · rw [if_pos hC] at h
      simp only [Except.ok.injEq, Prod.mk.injEq] at h
      refine Or.inr ⟨h.2.symm, ?_⟩
      rw [← h.1]
      intro c hc
      exact absurd hc (List.not_mem_nil c)
    · rw [if_neg hC] at h
      by_cases hT : (splitMax3 payload).getD 0 "" = "table"
      · rw [if_pos hT] at h
        cases hg : geti (splitMax3 payload) 1 with
        | error e =>
          simp only [hg, bind, Except.bind] at h
          exact Except.noConfusion h
        | ok r1 =>
          simp only [hg, bind, Except.bind] at h
          by_cases hm : cfg.tableMatch (r1.dropRight 1) = true
          · rw [if_pos hm] at h
            cases hl : List.lookup r1 cfg.pkPatterns with
            | none =>
              simp only [hl] at h
              exact Except.noConfusion h
            | some pat =>
              simp only [hl] at h
              cases hg3 : geti (splitMax3 payload) 3 with
              | error e =>
                simp only [hg3] at h
                exact Except.noConfusion h
              | ok r3 =>
                simp only [hg3] at h
                cases hp : pat r3 with
                | none =>
                  simp only [hp] at h
                  exact Except.noConfusion h
                | some pkey =>
                  simp only [hp] at h
                  cases hg2 : geti (splitMax3 payload) 2 with
                  | error e =>
                    simp only [hg2] at h
                    exact Except.noConfusion h
                  | ok r2 =>
                    simp only [hg2, Except.ok.injEq, Prod.mk.injEq] at h
                    refine Or.inr ⟨h.2.symm, ?_⟩
                    rw [← h.1]
                    intro c hc
                    rw [List.mem_singleton.mp hc]
          · rw [if_neg hm] at h
            simp only [Except.ok.injEq, Prod.mk.injEq] at h
            refine Or.inr ⟨h.2.symm, ?_⟩
            rw [← h.1]
            intro c hc
            exact absurd hc (List.not_mem_nil c)
      · rw [if_neg hT] at h
        exact Except.noConfusion h

/-- Claim C10: the stored transaction id starts as the empty string and
is mutated only by a BEGIN payload: any successful non-BEGIN call (COMMIT
or table-change) returns the incoming id unchanged, every produced
`Change` carries the incoming id (so a table-change before any BEGIN
yields xid = "", and table-changes after a COMMIT still carry the most
recent BEGIN's xid), and a BEGIN payload stores its second token. -/
theorem td_cur_xact_frame :
    initCurXact = "" ∧
    (∀ cfg : TDConfig, ∀ s payload : String, ∀ recs : List Change,
      ∀ s2 : String, (splitMax3 payload).getD 0 "" ≠ "BEGIN" →
      TestDecodingPreprocessor.preprocess cfg s payload
        = Except.ok (recs, s2) → s2 = s) ∧
    (∀ cfg : TDConfig, ∀ s payload : String, ∀ recs : List Change,
      ∀ s2 : String,
      TestDecodingPreprocessor.preprocess cfg s payload
        = Except.ok (recs, s2) → ∀ c ∈ recs, c.xid = s) ∧
    (∀ cfg : TDConfig, ∀ s payload x : String,
      splitMax3 payload = ["BEGIN", x] →
      TestDecodingPreprocessor.preprocess cfg s payload
        = Except.ok ([], x)) := by
  refine ⟨rfl, ?_, ?_, ?_⟩
  · intro cfg s payload recs s2 hne h
    rcases td_ok_cases cfg s payload recs s2 h with ⟨hB, _⟩ | ⟨hs, _⟩
    · exact absurd hB hne
    · exact hs
  · intro cfg s payload recs s2 h
    rcases td_ok_cases cfg s payload recs s2 h with ⟨_, hrecs⟩ | ⟨_, hall⟩
    · rw [hrecs]
      intro c hc
      exact absurd hc (List.not_mem_nil c)
    · exact hall
  · intro cfg s payload x hsplit
    simp [TestDecodingPreprocessor.preprocess, hsplit, geti, bind, Except.bind]

theorem td_cur_xact_frame_witness :
    initCurXact = "" ∧
    TestDecodingPreprocessor.preprocess ⟨fun _ => true, []⟩ initCurXact
      "BEGIN 42" = Except.ok ([], "42") ∧
    ("42" : String) = "42" :=
  ⟨td_cur_xact_frame.1,
   td_cur_xact_frame.2.2.2 ⟨fun _ => true, []⟩ initCurXact "BEGIN 42" "42"
     (by decide),
   td_cur_xact_frame.2.1 ⟨fun _ => true, []⟩ "42" "COMMIT" [] "42"
     (by decide) rfl⟩
